import Mathlib

/-!
# Verification of the YSMAI condition-monitoring engine

Shallow embedding of the condition-monitoring code of the repository:

* `src/students/Nafis_Frontend/mock_data.py` — the deterministic tick
  generator (`generate_mock_tick`): piecewise temperature model and the
  instantaneous condition classifier;
* `src/students/Nafis_Frontend/app.py` — the data-update loop: derived
  secondary sensors, bounded history, alert log and maintenance scheduler;
* `src/students/S12345_KhobaitSimran/agent_enhanced.py` — the debounced
  state machine `EnhancedYSMAI_Agent.update`.

Python floats are modelled as exact rationals (`ℚ`); Python's `round(x, n)`
(round-half-to-even) is modelled by `rhe`.
-/

/-- Instantaneous condition level, the `state` strings of
`generate_mock_tick` (mock_data.py lines 48–55) plus nothing else. -/
inductive CondState where
  | NORMAL
  | ALERT_LOW
  | ALERT_HIGH
  | CRITICAL
deriving DecidableEq, Repr

/-- Round-half-to-even to an integer, the tie-break Python's `round` uses. -/
def rhe (x : ℚ) : ℤ :=
  let f := ⌊x⌋
  let frac := x - f
  if frac < 1/2 then f
  else if 1/2 < frac then f + 1
  else if f % 2 = 0 then f else f + 1

/-- Python's `round(x, 2)` on a rational. -/
def round2 (x : ℚ) : ℚ := (rhe (x * 100) : ℚ) / 100

/-- Python's `round(x, 1)` on a rational. -/
def round1 (x : ℚ) : ℚ := (rhe (x * 10) : ℚ) / 10

/-- Temperature model of `generate_mock_tick` (mock_data.py lines 26–42):
warm-up ramp for `t ≤ 10`, near-steady phase for `10 < t ≤ 40`, degradation
drift afterwards, rounded to 2 decimals. -/
def mockTemperature (simulation_time initial_temp_f drift_rate_f : ℚ) : ℚ :=
  round2 <|
    if simulation_time ≤ 10 then
      initial_temp_f + simulation_time * 1.2
    else if simulation_time ≤ 40 then
      initial_temp_f + 12 + (simulation_time - 10) * 0.05
    else
      initial_temp_f + 12 + 30 * 0.05 + (simulation_time - 40) * drift_rate_f

/-- State logic of `generate_mock_tick` (mock_data.py lines 48–55): the
instantaneous classifier, checks in source order. -/
def classifyState (temperature high_threshold_f low_threshold_f : ℚ) :
    CondState :=
  if temperature ≥ high_threshold_f + 10 then .CRITICAL
  else if temperature ≥ high_threshold_f then .ALERT_HIGH
  else if temperature ≤ low_threshold_f then .ALERT_LOW
  else .NORMAL


/-- The agent states declared on `EnhancedYSMAI_Agent` (agent_enhanced.py
lines 27–30). -/
inductive AgentSt where
  | NORMAL
  | ALERT_HIGH
  | ALERT_LOW
  | ML_PREDICTED_FAULT
deriving DecidableEq, Repr

/-- Which alert message `_generate_alert_message` returns (agent_enhanced.py
lines 145–153); the concrete message strings are abstracted to their kind. -/
inductive AlertMsg where
  | highTemp
  | lowTemp
  | mlFault
deriving DecidableEq, Repr

/-- `_generate_alert_message`: `None` for NORMAL, a fixed message otherwise. -/
def alertMessage : AgentSt → Option AlertMsg
  | .NORMAL => none
  | .ALERT_HIGH => some .highTemp
  | .ALERT_LOW => some .lowTemp
  | .ML_PREDICTED_FAULT => some .mlFault

/-- Modelled from the spec: the FaultPredictor outputs
(`ml_training_kaggle.MLModelTrainer` is absent from the sources; §4.4 gives
its contract `{detected, confidence}` plus auxiliary predictions). The
contents never feed back into the state machine, so an abstract record
suffices. -/
structure MLInsights where
  fault_detected : Bool
  confidence : ℚ
  vibration_score : ℚ
deriving DecidableEq, Repr

/-- Mutable state of `EnhancedYSMAI_Agent` (agent_enhanced.py lines 48–61),
with the externally-supplied ML predictor abstracted as a function field. -/
structure Agent where
  threshold_high : ℚ
  threshold_low : ℚ
  debounce_sec : ℚ
  current_state : AgentSt
  last_state : AgentSt
  state_timestamp : ℚ
  condition_start_time : Option ℚ
  use_ml : Bool
  ml_ready : Bool
  mlPredict : ℚ → ℚ → ℚ → ℚ → MLInsights

/-- `EnhancedYSMAI_Agent.__init__` (agent_enhanced.py lines 32–70) with the
given constructor arguments; `now` is the `time.time()` value taken for
`state_timestamp`, and `ready` reflects whether ML loading succeeded. -/
def initAgent (threshold_high threshold_low debounce_sec : ℚ)
    (use_ml : Bool) (ready : Bool) (now : ℚ)
    (mlPredict : ℚ → ℚ → ℚ → ℚ → MLInsights) : Agent :=
  { threshold_high := threshold_high
    threshold_low := threshold_low
    debounce_sec := debounce_sec
    current_state := .NORMAL
    last_state := .NORMAL
    state_timestamp := now
    condition_start_time := none
    use_ml := use_ml
    ml_ready := ready
    mlPredict := mlPredict }

/-- `EnhancedYSMAI_Agent.reset` (agent_enhanced.py lines 200–205). -/
def resetAgent (a : Agent) (now : ℚ) : Agent :=
  { a with current_state := .NORMAL, last_state := .NORMAL,
           state_timestamp := now, condition_start_time := none }

/-- One sensor input to `EnhancedYSMAI_Agent.update`. -/
structure AgentInput where
  temp : ℚ
  timestamp_unix : ℚ
  rpm : ℚ := 0
  pressure : ℚ := 0
  vib : ℚ := 0
deriving DecidableEq, Repr

/-- Per-tick response dict of `EnhancedYSMAI_Agent.update` (agent_enhanced.py
lines 129–141). -/
structure AgentResponse where
  timestamp : ℚ
  temperature : ℚ
  state : AgentSt
  state_changed : Bool
  alert_message : Option AlertMsg
  ml_insights : Option MLInsights

/-- The rule-based FSM logic of `EnhancedYSMAI_Agent.update`
(agent_enhanced.py lines 96–121): given thresholds, debounce window, the
committed state, the pending `condition_start_time` and the tick's
temperature and timestamp, return `(new_state, condition_start_time after
the branch, state_changed)`. Comparisons are strict (`>` / `<`) exactly as
in the source. -/
def fsmStep (high low d : ℚ) (cur : AgentSt) (csts : Option ℚ)
    (temp current_time : ℚ) : AgentSt × Option ℚ × Bool :=
  let br : AgentSt × Option ℚ :=
    if temp > high then
      let start := csts.getD current_time
      let elapsed := current_time - start
      (if elapsed ≥ d then .ALERT_HIGH else cur, some start)
    else if temp < low then
      let start := csts.getD current_time
      let elapsed := current_time - start
      (if elapsed ≥ d then .ALERT_LOW else cur, some start)
    else
      match csts with
      | some start =>
          if current_time - start ≥ d then (.NORMAL, none)
          else (cur, some start)
      | none => (.NORMAL, none)
  (br.1, br.2, decide (br.1 ≠ cur))

/-- `EnhancedYSMAI_Agent.update` (agent_enhanced.py lines 72–143): the
rule-based FSM step, the commit block, and the response including the
advisory ML channel. -/
def agentUpdate (a : Agent) (inp : AgentInput) : Agent × AgentResponse :=
  let current_time := inp.timestamp_unix
  -- lines 96–121: FSM branch
  let st := fsmStep a.threshold_high a.threshold_low a.debounce_sec
    a.current_state a.condition_start_time inp.temp current_time
  let new_state := st.1
  let state_changed := st.2.2
  -- lines 121–126: commit block clears condition_start_time on a change
  let a' : Agent :=
    if state_changed then
      { a with current_state := new_state, last_state := a.current_state,
               state_timestamp := current_time, condition_start_time := none }
    else
      { a with condition_start_time := st.2.1 }
  -- lines 129–141: response, with the ML channel gated on use_ml ∧ ml_ready
  let resp : AgentResponse :=
    { timestamp := current_time
      temperature := inp.temp
      state := a'.current_state
      state_changed := state_changed
      alert_message := alertMessage a'.current_state
      ml_insights :=
        if a.use_ml ∧ a.ml_ready then
          some (a.mlPredict inp.rpm inp.pressure inp.temp inp.vib)
        else none }
  (a', resp)

/-- Run `update` over a list of inputs, collecting the responses. -/
def agentRun (a : Agent) : List AgentInput → Agent × List AgentResponse
  | [] => (a, [])
  | inp :: rest =>
      let p := agentUpdate a inp
      let q := agentRun p.1 rest
      (q.1, p.2 :: q.2)

/-- Alert severity strings used in app.py line 135. -/
inductive Sev where
  | CRITICAL
  | WARNING
deriving DecidableEq, Repr

/-- `rpm` derived sensor (app.py line 92): `1800 + randint(-200, 200)`;
`r` is the random draw. -/
def rpmOf (r : ℤ) : ℤ := 1800 + r

/-- `oil_pressure` derived sensor (app.py line 93): `max(10, 60 - rpm/100)`. -/
def oilPressureOf (rpm : ℤ) : ℚ := max 10 (60 - (rpm : ℚ) / 100)

/-- `vibration` derived sensor (app.py line 94):
`max(2, uniform(3, 8) + 0.05 * tick_count)`; `u` is the uniform draw. -/
def vibrationOf (u : ℚ) (tick_count : ℕ) : ℚ :=
  max 2 (u + 0.05 * (tick_count : ℚ))

/-- One full tick record assembled in app.py lines 109–120 (the fields the
update loop later reads, with secondary sensors rounded as stored). -/
structure Tick where
  state : CondState
  temperature_f : ℚ
  rpm : ℤ
  oil_pressure_psi : ℚ
  vibration_mms : ℚ
  voltage_v : ℚ
  ml_fault : Bool
  ml_confidence : ℚ
  vib_anomaly : Bool
deriving DecidableEq, Repr

/-- Entry of `alert_history` (app.py lines 132–136): the message string
`"State changed {prev} → {new}"` is modelled by its two state fields; the
wall-clock `time` string is out of the model. -/
structure AlertEvent where
  fromState : CondState
  toState : CondState
  severity : Sev
deriving DecidableEq, Repr

/-- Entry of `scheduler` (app.py lines 141–146). -/
structure MTask where
  priority : ℕ
  task : String
  status : String
  confidence : ℚ
deriving DecidableEq, Repr

/-- The session state the data-update loop mutates (app.py lines 35–42). -/
structure AppState where
  tick_count : ℕ
  sensor_history : List Tick
  alert_history : List AlertEvent
  scheduler : List MTask
deriving DecidableEq, Repr

/-- The `defaults` session state (app.py lines 35–42). -/
def emptyApp : AppState :=
  { tick_count := 0, sensor_history := [], alert_history := [],
    scheduler := [] }

/-- Python's `l[-n:]` trim applied when `len(l) > n`
(app.py lines 125–126 and 137–138). -/
def trimLast (n : ℕ) (l : List α) : List α :=
  if l.length > n then l.drop (l.length - n) else l

/-- Per-tick inputs of the data-update loop: the generated temperature and
the bounded random draws of lines 92–95 and 105 (`r` for
`randint(-200,200)`, `u` for `uniform(3,8)`, `v` for `uniform(12.2,13.8)`,
`conf` for `uniform(0.85,0.99)`). -/
structure AppInput where
  temp : ℚ
  r : ℤ
  u : ℚ
  v : ℚ
  conf : ℚ
deriving DecidableEq, Repr

/-- The full tick record assembled in app.py lines 92–120: classifier
state from `generate_mock_tick`, derived sensors from the bounded random
draws, and the mock ML outputs. -/
def mkTick (high low : ℚ) (tick_count : ℕ) (inp : AppInput) : Tick :=
  let st := classifyState inp.temp high low
  let rpm := rpmOf inp.r
  let oil := oilPressureOf rpm
  let vib := vibrationOf inp.u tick_count
  { state := st
    temperature_f := inp.temp
    rpm := rpm
    oil_pressure_psi := round1 oil
    vibration_mms := round2 vib
    voltage_v := round2 inp.v
    ml_fault := decide (inp.temp > high)
    ml_confidence := round2 inp.conf
    vib_anomaly := decide (vib > 18) }

/-- One pass of the data-update loop (app.py lines 81–146) while running:
build the full tick, append to bounded history, bump the tick counter, and
on a recorded state change append an alert (bounded) and a maintenance
task. -/
def appStep (high low : ℚ) (s : AppState) (inp : AppInput) : AppState :=
  let tick := mkTick high low s.tick_count inp
  let hist := trimLast 300 (s.sensor_history ++ [tick])
  let prev? : Option Tick :=
    if hist.length > 1 then hist[hist.length - 2]? else none
  let base : AppState :=
    { s with tick_count := s.tick_count + 1, sensor_history := hist }
  match prev? with
  | some prev =>
      if prev.state ≠ tick.state then
        { base with
          alert_history := trimLast 100 (s.alert_history ++
            [{ fromState := prev.state, toState := tick.state,
               severity := if tick.state = .CRITICAL then .CRITICAL
                           else .WARNING }])
          scheduler := s.scheduler ++
            [{ priority := if tick.state = .CRITICAL then 1 else 2,
               task := "Inspect cooling system",
               status := "Pending",
               confidence := round2 inp.conf }] }
      else base
  | none => base

/-- Iterate the data-update loop over a list of per-tick inputs. -/
def appRun (high low : ℚ) (s : AppState) : List AppInput → AppState
  | [] => s
  | inp :: rest => appRun high low (appStep high low s inp) rest

/-- A trivial stand-in predictor used to instantiate concrete agents. -/
def testPredict : ℚ → ℚ → ℚ → ℚ → MLInsights :=
  fun _ _ _ _ => { fault_detected := false, confidence := 0, vibration_score := 0 }

/-- The condition state of the most recent tick in the session history
(`st.session_state.sensor_history[-1]["state"]`). -/
def lastTickState (s : AppState) : Option CondState :=
  s.sensor_history.getLast?.map (·.state)

section Helpers

/-- `rhe` never rounds below an integer lower bound. -/
theorem le_rhe (a : ℤ) (x : ℚ) (h : (a : ℚ) ≤ x) : a ≤ rhe x := by
  have hfl : a ≤ ⌊x⌋ := Int.le_floor.mpr h
  simp only [rhe]
  split_ifs <;> omega

/-- `rhe` never rounds above an integer upper bound. -/
theorem rhe_le (b : ℤ) (x : ℚ) (h : x ≤ (b : ℚ)) : rhe x ≤ b := by
  have hfl : ⌊x⌋ ≤ b := by
    calc ⌊x⌋ ≤ ⌊(b : ℚ)⌋ := Int.floor_le_floor h
    _ = b := Int.floor_intCast b
  by_cases hx : x = (b : ℚ)
  · subst hx
    simp only [rhe, Int.floor_intCast, sub_self]
    norm_num
  · have hlt : x < (b : ℚ) := lt_of_le_of_ne h hx
    have hfl' : ⌊x⌋ < b := by
      rcases lt_or_eq_of_le hfl with h' | h'
      · exact h'
      · exact absurd (h' ▸ Int.floor_le x) (not_le.mpr hlt)
    simp only [rhe]
    split_ifs <;> omega

end Helpers

theorem ten_mul_round1 (x : ℚ) : 10 * round1 x = (rhe (x * 10) : ℚ) := by
  unfold round1; ring

theorem hundred_mul_round2 (x : ℚ) : 100 * round2 x = (rhe (x * 100) : ℚ) := by
  unfold round2; ring

/-- C6: for every pair of thresholds, the instantaneous classifier maps a
temperature exactly equal to `highThreshold + 10` to CRITICAL, not
ALERT_HIGH: the CRITICAL check precedes the ALERT_HIGH check. -/
theorem C6_classify_boundary_critical (high low : ℚ) :
    classifyState (high + 10) high low = .CRITICAL := by
  simp [classifyState]

/-- C2 counterexample: with `initialTemp=60, driftRate=0.5`, the tick
generator at `simulationTime = 41` produces temperature `74.0`, not the
`72.75` the claim states. -/
theorem C2_counterexample :
    mockTemperature 41 60 0.5 = 74 ∧ mockTemperature 41 60 0.5 ≠ 72.75 := by
  norm_num [mockTemperature, round2, rhe]

/-- C2 (amended): with `initialTemp=60, driftRate=0.5, highThreshold=85,
lowThreshold=50`, the generator at `simulationTime = 0, 5, 10, 41, 42, 43`
produces temperatures `60.0, 66.0, 72.0, 74.0, 74.5, 75.0`, and each of
these readings is classified NORMAL. -/
theorem C2_amended_values :
    (mockTemperature 0 60 0.5 = 60 ∧ mockTemperature 5 60 0.5 = 66 ∧
     mockTemperature 10 60 0.5 = 72 ∧ mockTemperature 41 60 0.5 = 74 ∧
     mockTemperature 42 60 0.5 = 74.5 ∧ mockTemperature 43 60 0.5 = 75) ∧
    (classifyState (mockTemperature 0 60 0.5) 85 50 = .NORMAL ∧
     classifyState (mockTemperature 5 60 0.5) 85 50 = .NORMAL ∧
     classifyState (mockTemperature 10 60 0.5) 85 50 = .NORMAL ∧
     classifyState (mockTemperature 41 60 0.5) 85 50 = .NORMAL ∧
     classifyState (mockTemperature 42 60 0.5) 85 50 = .NORMAL ∧
     classifyState (mockTemperature 43 60 0.5) 85 50 = .NORMAL) := by
  norm_num [mockTemperature, round2, rhe, classifyState]

/-- C8 counterexample: vibration has no upper clamp — it grows with the
tick counter. Concretely, at `tick_count = 960` (with the uniform draw at
its lower end 3) the stored vibration is `51`, above the dashboard's 50
display ceiling; and no ceiling ever bounds it across all tick counts. -/
theorem C8_counterexample :
    (round2 (vibrationOf 3 960) = 51 ∧ (51 : ℚ) > 50) ∧
    ¬ ∃ B : ℚ, ∀ (tc : ℕ) (u : ℚ), 3 ≤ u → u ≤ 8 →
        round2 (vibrationOf u tc) ≤ B := by
  constructor
  · constructor
    · norm_num [vibrationOf, round2, rhe, max_def]
    · norm_num
  · rintro ⟨B, hB⟩
    have hb := hB (20 * (⌈B⌉.toNat + 1)) 3 le_rfl (by norm_num)
    have hlow : (3 : ℚ) + 0.05 * ((20 * (⌈B⌉.toNat + 1) : ℕ) : ℚ) ≤
        vibrationOf 3 (20 * (⌈B⌉.toNat + 1)) := le_max_right _ _
    have hcast : ((20 * (⌈B⌉.toNat + 1) : ℕ) : ℚ) =
        20 * ((⌈B⌉.toNat : ℚ) + 1) := by push_cast; ring
    have hrhe : ((400 : ℤ) + 100 * (⌈B⌉.toNat : ℤ)) ≤
        rhe (vibrationOf 3 (20 * (⌈B⌉.toNat + 1)) * 100) := by
      apply le_rhe
      rw [hcast] at hlow
      push_cast
      nlinarith [hlow]
    have hmul := hundred_mul_round2 (vibrationOf 3 (20 * (⌈B⌉.toNat + 1)))
    have hq : ((400 : ℚ) + 100 * (⌈B⌉.toNat : ℚ)) ≤
        100 * round2 (vibrationOf 3 (20 * (⌈B⌉.toNat + 1))) := by
      rw [hmul]
      exact_mod_cast hrhe
    have hBle : B ≤ (⌈B⌉.toNat : ℚ) := by
      calc B ≤ (⌈B⌉ : ℚ) := Int.le_ceil B
      _ ≤ ((⌈B⌉.toNat : ℤ) : ℚ) := by exact_mod_cast Int.self_le_toNat ⌈B⌉
      _ = (⌈B⌉.toNat : ℚ) := by push_cast; rfl
    linarith

/-- C8 (amended): per tick, given the bounded random draws of app.py lines
92–95 (`randint(-200,200)`, `uniform(3,8)`, `uniform(12.2,13.8)`), the
stored secondary values satisfy: rpm lies in [1600, 2000]; stored oil
pressure lies in [10, 44] (so never below its minimum of 10); stored
vibration is at least its floor 2; stored voltage lies in [12.2, 13.8].
All four are non-negative, and rpm, oil pressure and voltage are bounded
above — but vibration is not (see the counterexample). -/
theorem C8_amended (r : ℤ) (u v : ℚ) (tc : ℕ)
    (hr1 : -200 ≤ r) (hr2 : r ≤ 200)
    (hu1 : 3 ≤ u) (hu2 : u ≤ 8)
    (hv1 : 12.2 ≤ v) (hv2 : v ≤ 13.8) :
    (0 ≤ rpmOf r ∧ 1600 ≤ rpmOf r ∧ rpmOf r ≤ 2000) ∧
    (10 ≤ round1 (oilPressureOf (rpmOf r)) ∧
     round1 (oilPressureOf (rpmOf r)) ≤ 44) ∧
    (2 ≤ round2 (vibrationOf u tc)) ∧
    (12.2 ≤ round2 v ∧ round2 v ≤ 13.8) := by
  have hrpm1 : (1600 : ℤ) ≤ rpmOf r := by unfold rpmOf; omega
  have hrpm2 : rpmOf r ≤ 2000 := by unfold rpmOf; omega
  have hoil1 : (10 : ℚ) ≤ oilPressureOf (rpmOf r) := le_max_left _ _
  have hoil2 : oilPressureOf (rpmOf r) ≤ 44 := by
    have hc : (1600 : ℚ) ≤ ((rpmOf r : ℤ) : ℚ) := by exact_mod_cast hrpm1
    refine max_le (by norm_num) (by linarith)
  have ho1 : (100 : ℤ) ≤ rhe (oilPressureOf (rpmOf r) * 10) :=
    le_rhe _ _ (by push_cast; linarith)
  have ho2 : rhe (oilPressureOf (rpmOf r) * 10) ≤ 440 :=
    rhe_le _ _ (by push_cast; linarith)
  have hmo := ten_mul_round1 (oilPressureOf (rpmOf r))
  have hvib : (2 : ℚ) ≤ vibrationOf u tc := le_max_left _ _
  have hvr : (200 : ℤ) ≤ rhe (vibrationOf u tc * 100) :=
    le_rhe _ _ (by push_cast; linarith)
  have hmv := hundred_mul_round2 (vibrationOf u tc)
  have hvo1 : (1220 : ℤ) ≤ rhe (v * 100) := le_rhe _ _ (by push_cast; linarith)
  have hvo2 : rhe (v * 100) ≤ 1380 := rhe_le _ _ (by push_cast; linarith)
  have hmvo := hundred_mul_round2 v
  have co1 : (100 : ℚ) ≤ (rhe (oilPressureOf (rpmOf r) * 10) : ℚ) := by
    exact_mod_cast ho1
  have co2 : (rhe (oilPressureOf (rpmOf r) * 10) : ℚ) ≤ 440 := by
    exact_mod_cast ho2
  have cv : (200 : ℚ) ≤ (rhe (vibrationOf u tc * 100) : ℚ) := by
    exact_mod_cast hvr
  have cvo1 : (1220 : ℚ) ≤ (rhe (v * 100) : ℚ) := by exact_mod_cast hvo1
  have cvo2 : (rhe (v * 100) : ℚ) ≤ 1380 := by exact_mod_cast hvo2
  refine ⟨⟨by omega, hrpm1, hrpm2⟩, ⟨by linarith, by linarith⟩,
    by linarith, by linarith, by linarith⟩

/-- C8 witness: the amended bounds instantiated at concrete draws. -/
theorem C8_amended_witness :
    (0 ≤ rpmOf 0 ∧ 1600 ≤ rpmOf 0 ∧ rpmOf 0 ≤ 2000) ∧
    (10 ≤ round1 (oilPressureOf (rpmOf 0)) ∧
     round1 (oilPressureOf (rpmOf 0)) ≤ 44) ∧
    (2 ≤ round2 (vibrationOf 5 7)) ∧
    (12.2 ≤ round2 13 ∧ round2 13 ≤ 13.8) :=
  C8_amended 0 5 13 7 (by norm_num) (by norm_num) (by norm_num)
    (by norm_num) (by norm_num) (by norm_num)

section AgentLemmas

/-- If the step reports no change, the branch state equals the committed
state. -/
theorem fsmStep_fst_of_not_changed (high low d : ℚ) (cur : AgentSt)
    (csts : Option ℚ) (temp t : ℚ)
    (h : (fsmStep high low d cur csts temp t).2.2 = false) :
    (fsmStep high low d cur csts temp t).1 = cur := by
  unfold fsmStep at h ⊢
  simpa using h

/-- In-range tick while committed NORMAL: state stays NORMAL, no change;
the dwell marker is cleared only when absent or expired. -/
theorem fsmStep_inrange_normal (high low d : ℚ) (csts : Option ℚ)
    (temp t : ℚ) (hlow : low ≤ temp) (hhigh : temp ≤ high) :
    fsmStep high low d .NORMAL csts temp t =
      (.NORMAL,
       (match csts with
        | none => none
        | some t0 => if t - t0 ≥ d then none else some t0),
       false) := by
  unfold fsmStep
  have h1 : ¬(temp > high) := not_lt.mpr hhigh
  have h2 : ¬(temp < low) := not_lt.mpr hlow
  rcases csts with _ | t0
  · simp [h1, h2]
  · by_cases hd : t - t0 ≥ d <;> simp [h1, h2, hd]

/-- High tick while already committed ALERT_HIGH: absorbed, no change. -/
theorem fsmStep_high_absorb (high low d : ℚ) (csts : Option ℚ)
    (temp t : ℚ) (h : temp > high) :
    fsmStep high low d .ALERT_HIGH csts temp t =
      (.ALERT_HIGH, some (csts.getD t), false) := by
  unfold fsmStep
  rcases csts with _ | t0 <;>
    by_cases hd : t - (Option.getD (α := ℚ) none t) ≥ d <;>
    simp_all <;> split_ifs <;> simp_all

/-- High tick with a pending dwell that has not yet elapsed: hold. -/
theorem fsmStep_high_wait (high low d : ℚ) (cur : AgentSt)
    (csts : Option ℚ) (temp t t0 : ℚ) (h : temp > high)
    (hc : csts = some t0) (hd : ¬(t - t0 ≥ d)) :
    fsmStep high low d cur csts temp t = (cur, some t0, false) := by
  unfold fsmStep
  subst hc
  simp [h, hd]

/-- High tick with a pending dwell that has elapsed: commit ALERT_HIGH. -/
theorem fsmStep_high_commit (high low d : ℚ) (cur : AgentSt)
    (csts : Option ℚ) (temp t t0 : ℚ) (h : temp > high)
    (hc : csts = some t0) (hd : t - t0 ≥ d) :
    fsmStep high low d cur csts temp t =
      (.ALERT_HIGH, some t0, decide (AgentSt.ALERT_HIGH ≠ cur)) := by
  unfold fsmStep
  subst hc
  simp [h, hd]

/-- High tick with no pending dwell: start the dwell at the current time. -/
theorem fsmStep_high_fresh (high low d : ℚ) (cur : AgentSt)
    (csts : Option ℚ) (temp t : ℚ) (h : temp > high) (hc : csts = none) :
    fsmStep high low d cur csts temp t =
      (if (0 : ℚ) ≥ d then
        (.ALERT_HIGH, some t, decide (AgentSt.ALERT_HIGH ≠ cur))
      else (cur, some t, false)) := by
  unfold fsmStep
  subst hc
  by_cases hd : (0 : ℚ) ≥ d <;>
    simp [h, hd, sub_self]

end AgentLemmas

section AgentRunLemmas

/-- Unfolding of the state-commit block of `update`. -/
theorem agentUpdate_fst_eq (a : Agent) (inp : AgentInput) :
    (agentUpdate a inp).1 =
      if (fsmStep a.threshold_high a.threshold_low a.debounce_sec
            a.current_state a.condition_start_time inp.temp
            inp.timestamp_unix).2.2 then
        { a with
          current_state := (fsmStep a.threshold_high a.threshold_low
            a.debounce_sec a.current_state a.condition_start_time inp.temp
            inp.timestamp_unix).1,
          last_state := a.current_state,
          state_timestamp := inp.timestamp_unix,
          condition_start_time := none }
      else
        { a with
          condition_start_time := (fsmStep a.threshold_high a.threshold_low
            a.debounce_sec a.current_state a.condition_start_time inp.temp
            inp.timestamp_unix).2.1 } := rfl

/-- `update` never touches the thresholds, the debounce window or the ML
configuration. -/
theorem agentUpdate_config (a : Agent) (inp : AgentInput) :
    (agentUpdate a inp).1.threshold_high = a.threshold_high ∧
    (agentUpdate a inp).1.threshold_low = a.threshold_low ∧
    (agentUpdate a inp).1.debounce_sec = a.debounce_sec ∧
    (agentUpdate a inp).1.use_ml = a.use_ml ∧
    (agentUpdate a inp).1.ml_ready = a.ml_ready ∧
    (agentUpdate a inp).1.mlPredict = a.mlPredict := by
  rw [agentUpdate_fst_eq]
  split <;> exact ⟨rfl, rfl, rfl, rfl, rfl, rfl⟩

/-- The committed state after `update` is the FSM branch state. -/
theorem agentUpdate_state (a : Agent) (inp : AgentInput) :
    (agentUpdate a inp).1.current_state =
      (fsmStep a.threshold_high a.threshold_low a.debounce_sec
        a.current_state a.condition_start_time inp.temp
        inp.timestamp_unix).1 := by
  rw [agentUpdate_fst_eq]
  split
  · rfl
  · next h =>
      exact (fsmStep_fst_of_not_changed a.threshold_high a.threshold_low
        a.debounce_sec a.current_state a.condition_start_time inp.temp
        inp.timestamp_unix (Bool.not_eq_true _ ▸ h)).symm

/-- The dwell marker after `update`: cleared on a commit, otherwise the
branch value. -/
theorem agentUpdate_csts (a : Agent) (inp : AgentInput) :
    (agentUpdate a inp).1.condition_start_time =
      if (fsmStep a.threshold_high a.threshold_low a.debounce_sec
            a.current_state a.condition_start_time inp.temp
            inp.timestamp_unix).2.2 then none
      else (fsmStep a.threshold_high a.threshold_low a.debounce_sec
            a.current_state a.condition_start_time inp.temp
            inp.timestamp_unix).2.1 := by
  rw [agentUpdate_fst_eq]
  by_cases h : (fsmStep a.threshold_high a.threshold_low a.debounce_sec
      a.current_state a.condition_start_time inp.temp
      inp.timestamp_unix).2.2 <;> simp [h]

/-- The response's `state_changed` flag is the FSM's. -/
theorem agentUpdate_changed (a : Agent) (inp : AgentInput) :
    (agentUpdate a inp).2.state_changed =
      (fsmStep a.threshold_high a.threshold_low a.debounce_sec
        a.current_state a.condition_start_time inp.temp
        inp.timestamp_unix).2.2 := rfl

/-- The response reports the post-commit state. -/
theorem agentUpdate_resp_state (a : Agent) (inp : AgentInput) :
    (agentUpdate a inp).2.state = (agentUpdate a inp).1.current_state := rfl

/-- The ML channel of the response (agent_enhanced.py lines 138–141). -/
theorem agentUpdate_ml (a : Agent) (inp : AgentInput) :
    (agentUpdate a inp).2.ml_insights =
      if a.use_ml ∧ a.ml_ready then
        some (a.mlPredict inp.rpm inp.pressure inp.temp inp.vib)
      else none := rfl

theorem agentRun_nil (a : Agent) : agentRun a [] = (a, []) := rfl

theorem agentRun_cons (a : Agent) (x : AgentInput) (xs : List AgentInput) :
    agentRun a (x :: xs) =
      ((agentRun (agentUpdate a x).1 xs).1,
       (agentUpdate a x).2 :: (agentRun (agentUpdate a x).1 xs).2) := rfl

/-- A whole run never touches the thresholds, debounce window or ML
configuration. -/
theorem agentRun_config (a : Agent) (inputs : List AgentInput) :
    (agentRun a inputs).1.threshold_high = a.threshold_high ∧
    (agentRun a inputs).1.threshold_low = a.threshold_low ∧
    (agentRun a inputs).1.debounce_sec = a.debounce_sec := by
  induction inputs generalizing a with
  | nil => exact ⟨rfl, rfl, rfl⟩
  | cons x xs ih =>
      have h1 := agentUpdate_config a x
      have h2 := ih (agentUpdate a x).1
      rw [agentRun_cons]
      exact ⟨h2.1.trans h1.1, h2.2.1.trans h1.2.1, h2.2.2.trans h1.2.2.1⟩

end AgentRunLemmas

section AgentRunInvariants

/-- A run over in-range temperatures starting from committed NORMAL stays
NORMAL and never reports a change. -/
theorem agentRun_inrange_normal (inputs : List AgentInput) (a : Agent)
    (hst : a.current_state = .NORMAL)
    (hin : ∀ x ∈ inputs,
      a.threshold_low ≤ x.temp ∧ x.temp ≤ a.threshold_high) :
    (agentRun a inputs).1.current_state = .NORMAL ∧
    ∀ r ∈ (agentRun a inputs).2,
      r.state = .NORMAL ∧ r.state_changed = false := by
  induction inputs generalizing a with
  | nil => exact ⟨hst, by simp [agentRun_nil]⟩
  | cons x xs ih =>
      have hx := hin x (List.mem_cons_self x xs)
      have hfsm := fsmStep_inrange_normal a.threshold_high a.threshold_low
        a.debounce_sec a.condition_start_time x.temp x.timestamp_unix
        hx.1 hx.2
      have hstate : (agentUpdate a x).1.current_state = .NORMAL := by
        rw [agentUpdate_state, hst, hfsm]
      have hchanged : (agentUpdate a x).2.state_changed = false := by
        rw [agentUpdate_changed, hst, hfsm]
      have hcfg := agentUpdate_config a x
      have ihres := ih (agentUpdate a x).1 hstate (by
        intro y hy
        rw [hcfg.2.1, hcfg.1]
        exact hin y (List.mem_cons_of_mem x hy))
      rw [agentRun_cons]
      refine ⟨ihres.1, ?_⟩
      intro r hr
      rcases List.mem_cons.mp hr with h | h
      · subst h
        exact ⟨(agentUpdate_resp_state a x).trans hstate, hchanged⟩
      · exact ihres.2 r h

/-- A run over above-threshold temperatures starting from committed
ALERT_HIGH is absorbed: no further changes. -/
theorem agentRun_high_absorb (inputs : List AgentInput) (a : Agent)
    (hst : a.current_state = .ALERT_HIGH)
    (hhigh : ∀ x ∈ inputs, x.temp > a.threshold_high) :
    (agentRun a inputs).1.current_state = .ALERT_HIGH ∧
    ∀ r ∈ (agentRun a inputs).2,
      r.state = .ALERT_HIGH ∧ r.state_changed = false := by
  induction inputs generalizing a with
  | nil => exact ⟨hst, by simp [agentRun_nil]⟩
  | cons x xs ih =>
      have hx := hhigh x (List.mem_cons_self x xs)
      have hfsm := fsmStep_high_absorb a.threshold_high a.threshold_low
        a.debounce_sec a.condition_start_time x.temp x.timestamp_unix hx
      have hstate : (agentUpdate a x).1.current_state = .ALERT_HIGH := by
        rw [agentUpdate_state, hst, hfsm]
      have hchanged : (agentUpdate a x).2.state_changed = false := by
        rw [agentUpdate_changed, hst, hfsm]
      have hcfg := agentUpdate_config a x
      have ihres := ih (agentUpdate a x).1 hstate (by
        intro y hy
        rw [hcfg.1]
        exact hhigh y (List.mem_cons_of_mem x hy))
      rw [agentRun_cons]
      refine ⟨ihres.1, ?_⟩
      intro r hr
      rcases List.mem_cons.mp hr with h | h
      · subst h
        exact ⟨(agentUpdate_resp_state a x).trans hstate, hchanged⟩
      · exact ihres.2 r h

end AgentRunInvariants

section AgentRunDebounce

/-- A run over above-threshold temperatures from committed NORMAL with a
pending dwell started at `t0`: exactly one change is reported iff some tick
reaches the debounce window, and the final state is ALERT_HIGH in that
case, NORMAL otherwise. -/
theorem agentRun_high_pending (inputs : List AgentInput) (a : Agent)
    (t0 : ℚ) (hst : a.current_state = .NORMAL)
    (hcs : a.condition_start_time = some t0)
    (hhigh : ∀ x ∈ inputs, x.temp > a.threshold_high) :
    (((agentRun a inputs).2.filter (fun r => r.state_changed)).length =
      if ∃ x ∈ inputs, x.timestamp_unix - t0 ≥ a.debounce_sec then 1
      else 0) ∧
    ((agentRun a inputs).1.current_state =
      if ∃ x ∈ inputs, x.timestamp_unix - t0 ≥ a.debounce_sec then
        .ALERT_HIGH
      else .NORMAL) := by
  induction inputs generalizing a with
  | nil => simp [agentRun_nil, hst]
  | cons x xs ih =>
      have hx := hhigh x (List.mem_cons_self x xs)
      have hcfg := agentUpdate_config a x
      by_cases hd : x.timestamp_unix - t0 ≥ a.debounce_sec
      · -- the dwell elapsed: commit ALERT_HIGH on this tick
        have hfsm := fsmStep_high_commit a.threshold_high a.threshold_low
          a.debounce_sec a.current_state a.condition_start_time x.temp
          x.timestamp_unix t0 hx hcs hd
        have hstate : (agentUpdate a x).1.current_state = .ALERT_HIGH := by
          rw [agentUpdate_state, hfsm]
        have hchanged : (agentUpdate a x).2.state_changed = true := by
          rw [agentUpdate_changed, hfsm, hst]
          simp
        have habs := agentRun_high_absorb xs (agentUpdate a x).1 hstate (by
          intro y hy
          rw [hcfg.1]
          exact hhigh y (List.mem_cons_of_mem x hy))
        have hfilter :
            ((agentRun (agentUpdate a x).1 xs).2.filter
              (fun r => r.state_changed)) = [] := by
          rw [List.filter_eq_nil]
          intro r hr
          simp [(habs.2 r hr).2]
        have hex : ∃ y ∈ x :: xs, y.timestamp_unix - t0 ≥ a.debounce_sec :=
          ⟨x, List.mem_cons_self x xs, hd⟩
        rw [agentRun_cons]
        simp only [if_pos hex]
        constructor
        · simp [List.filter_cons, hchanged, hfilter]
        · exact habs.1
      · -- the dwell has not elapsed: hold NORMAL
        have hfsm := fsmStep_high_wait a.threshold_high a.threshold_low
          a.debounce_sec a.current_state a.condition_start_time x.temp
          x.timestamp_unix t0 hx hcs hd
        have hstate : (agentUpdate a x).1.current_state = .NORMAL := by
          rw [agentUpdate_state, hfsm]
          exact hst
        have hchanged : (agentUpdate a x).2.state_changed = false := by
          rw [agentUpdate_changed, hfsm]
        have hcsts : (agentUpdate a x).1.condition_start_time = some t0 := by
          rw [agentUpdate_csts, hfsm]
          rfl
        have ihres := ih (agentUpdate a x).1 hstate hcsts (by
          intro y hy
          rw [hcfg.1]
          exact hhigh y (List.mem_cons_of_mem x hy))
        rw [hcfg.2.2.1] at ihres
        have hiff : (∃ y ∈ x :: xs, y.timestamp_unix - t0 ≥ a.debounce_sec)
            ↔ (∃ y ∈ xs, y.timestamp_unix - t0 ≥ a.debounce_sec) := by
          constructor
          · rintro ⟨y, hy, hge⟩
            rcases List.mem_cons.mp hy with h | h
            · exact absurd (h ▸ hge) hd
            · exact ⟨y, h, hge⟩
          · rintro ⟨y, hy, hge⟩
            exact ⟨y, List.mem_cons_of_mem x hy, hge⟩
        rw [agentRun_cons]
        constructor
        · rw [if_congr hiff rfl rfl]
          simpa [List.filter_cons, hchanged] using ihres.1
        · rw [if_congr hiff rfl rfl]
          exact ihres.2

end AgentRunDebounce

section AgentRunBlip

/-- A run over above-threshold temperatures from committed NORMAL in which
every tick is within the debounce window of the (possibly pending) dwell
start and of every other tick: the state never changes. -/
theorem agentRun_high_short (inputs : List AgentInput) (a : Agent)
    (hst : a.current_state = .NORMAL)
    (hinv : a.condition_start_time = none ∨
      ∃ t0, a.condition_start_time = some t0 ∧
        ∀ x ∈ inputs, x.timestamp_unix - t0 < a.debounce_sec)
    (hhigh : ∀ x ∈ inputs, x.temp > a.threshold_high)
    (hpair : ∀ x ∈ inputs, ∀ y ∈ inputs,
      y.timestamp_unix - x.timestamp_unix < a.debounce_sec) :
    (agentRun a inputs).1.current_state = .NORMAL ∧
    ∀ r ∈ (agentRun a inputs).2,
      r.state = .NORMAL ∧ r.state_changed = false := by
  induction inputs generalizing a with
  | nil => exact ⟨hst, by simp [agentRun_nil]⟩
  | cons x xs ih =>
      have hx := hhigh x (List.mem_cons_self x xs)
      have hcfg := agentUpdate_config a x
      have hkey : (agentUpdate a x).1.current_state = .NORMAL ∧
          (agentUpdate a x).2.state_changed = false ∧
          ∃ t0, (agentUpdate a x).1.condition_start_time = some t0 ∧
            ∀ y ∈ xs, y.timestamp_unix - t0 < a.debounce_sec := by
        rcases hinv with hnone | ⟨t0, hsome, hbound⟩
        · have h0 : ¬((0 : ℚ) ≥ a.debounce_sec) := by
            have := hpair x (List.mem_cons_self x xs) x
              (List.mem_cons_self x xs)
            simpa using not_le.mpr (by simpa using this)
          have hfsm := fsmStep_high_fresh a.threshold_high a.threshold_low
            a.debounce_sec a.current_state a.condition_start_time x.temp
            x.timestamp_unix hx hnone
          rw [if_neg h0] at hfsm
          refine ⟨?_, ?_, x.timestamp_unix, ?_, ?_⟩
          · rw [agentUpdate_state, hfsm]; exact hst
          · rw [agentUpdate_changed, hfsm]
          · rw [agentUpdate_csts, hfsm]
            rfl
          · intro y hy
            exact hpair x (List.mem_cons_self x xs) y
              (List.mem_cons_of_mem x hy)
        · have hd : ¬(x.timestamp_unix - t0 ≥ a.debounce_sec) :=
            not_le.mpr (hbound x (List.mem_cons_self x xs))
          have hfsm := fsmStep_high_wait a.threshold_high a.threshold_low
            a.debounce_sec a.current_state a.condition_start_time x.temp
            x.timestamp_unix t0 hx hsome hd
          refine ⟨?_, ?_, t0, ?_, ?_⟩
          · rw [agentUpdate_state, hfsm]; exact hst
          · rw [agentUpdate_changed, hfsm]
          · rw [agentUpdate_csts, hfsm]; rfl
          · intro y hy
            exact hbound y (List.mem_cons_of_mem x hy)
      obtain ⟨hstate, hchanged, t0', hcsts', hbound'⟩ := hkey
      have ihres := ih (agentUpdate a x).1 hstate
        (Or.inr ⟨t0', hcsts', by
          intro y hy
          rw [hcfg.2.2.1]
          exact hbound' y hy⟩)
        (by
          intro y hy
          rw [hcfg.1]
          exact hhigh y (List.mem_cons_of_mem x hy))
        (by
          intro y hy z hz
          rw [hcfg.2.2.1]
          exact hpair y (List.mem_cons_of_mem x hy) z
            (List.mem_cons_of_mem x hz))
      rw [agentRun_cons]
      refine ⟨ihres.1, ?_⟩
      intro r hr
      rcases List.mem_cons.mp hr with h | h
      · subst h
        exact ⟨(agentUpdate_resp_state a x).trans hstate, hchanged⟩
      · exact ihres.2 r h

end AgentRunBlip

section AgentReachability

/-- Each `update` either keeps the committed state or assigns one of
NORMAL, ALERT_HIGH, ALERT_LOW — never ML_PREDICTED_FAULT. -/
theorem agentUpdate_state_cases (a : Agent) (inp : AgentInput) :
    (agentUpdate a inp).1.current_state = a.current_state ∨
    (agentUpdate a inp).1.current_state = .NORMAL ∨
    (agentUpdate a inp).1.current_state = .ALERT_HIGH ∨
    (agentUpdate a inp).1.current_state = .ALERT_LOW := by
  rw [agentUpdate_state]
  unfold fsmStep
  rcases a.condition_start_time with _ | t0 <;>
    dsimp only <;> split_ifs <;> simp

/-- Along any run, the committed state and every reported state is one of
NORMAL, ALERT_HIGH, ALERT_LOW whenever the starting state is. -/
theorem agentRun_states_good (inputs : List AgentInput) (a : Agent)
    (h : a.current_state = .NORMAL ∨ a.current_state = .ALERT_HIGH ∨
      a.current_state = .ALERT_LOW) :
    ((agentRun a inputs).1.current_state = .NORMAL ∨
     (agentRun a inputs).1.current_state = .ALERT_HIGH ∨
     (agentRun a inputs).1.current_state = .ALERT_LOW) ∧
    ∀ r ∈ (agentRun a inputs).2,
      r.state = .NORMAL ∨ r.state = .ALERT_HIGH ∨ r.state = .ALERT_LOW := by
  induction inputs generalizing a with
  | nil => exact ⟨h, by simp [agentRun_nil]⟩
  | cons x xs ih =>
      have hstep : (agentUpdate a x).1.current_state = .NORMAL ∨
          (agentUpdate a x).1.current_state = .ALERT_HIGH ∨
          (agentUpdate a x).1.current_state = .ALERT_LOW := by
        rcases agentUpdate_state_cases a x with hc | hc | hc | hc
        · rw [hc]; exact h
        · exact Or.inl hc
        · exact Or.inr (Or.inl hc)
        · exact Or.inr (Or.inr hc)
      have ihres := ih (agentUpdate a x).1 hstep
      rw [agentRun_cons]
      refine ⟨ihres.1, ?_⟩
      intro r hr
      rcases List.mem_cons.mp hr with hr' | hr'
      · subst hr'
        rw [agentUpdate_resp_state]
        exact hstep
      · exact ihres.2 r hr'

end AgentReachability

section AgentMLIndependence

/-- Two agents agreeing on thresholds, debounce window, committed state
and dwell marker produce identical committed states and identical
per-tick `(state, state_changed)` outputs on every input sequence,
regardless of their ML configuration. -/
theorem agentRun_ml_indep (inputs : List AgentInput) (a b : Agent)
    (hh : a.threshold_high = b.threshold_high)
    (hl : a.threshold_low = b.threshold_low)
    (hd : a.debounce_sec = b.debounce_sec)
    (hc : a.current_state = b.current_state)
    (hs : a.condition_start_time = b.condition_start_time) :
    (agentRun a inputs).1.current_state =
      (agentRun b inputs).1.current_state ∧
    (agentRun a inputs).2.map (fun r => (r.state, r.state_changed)) =
      (agentRun b inputs).2.map (fun r => (r.state, r.state_changed)) := by
  induction inputs generalizing a b with
  | nil => exact ⟨hc, rfl⟩
  | cons x xs ih =>
      have hfsm : fsmStep a.threshold_high a.threshold_low a.debounce_sec
          a.current_state a.condition_start_time x.temp x.timestamp_unix =
          fsmStep b.threshold_high b.threshold_low b.debounce_sec
          b.current_state b.condition_start_time x.temp x.timestamp_unix := by
        rw [hh, hl, hd, hc, hs]
      have hacfg := agentUpdate_config a x
      have hbcfg := agentUpdate_config b x
      have hstate : (agentUpdate a x).1.current_state =
          (agentUpdate b x).1.current_state := by
        rw [agentUpdate_state, agentUpdate_state, hfsm]
      have hcsts : (agentUpdate a x).1.condition_start_time =
          (agentUpdate b x).1.condition_start_time := by
        rw [agentUpdate_csts, agentUpdate_csts, hfsm]
      have hchanged : (agentUpdate a x).2.state_changed =
          (agentUpdate b x).2.state_changed := by
        rw [agentUpdate_changed, agentUpdate_changed, hfsm]
      have ihres := ih (agentUpdate a x).1 (agentUpdate b x).1
        (by rw [hacfg.1, hbcfg.1, hh]) (by rw [hacfg.2.1, hbcfg.2.1, hl])
        (by rw [hacfg.2.2.1, hbcfg.2.2.1, hd]) hstate hcsts
      rw [agentRun_cons, agentRun_cons]
      refine ⟨ihres.1, ?_⟩
      simp only [List.map_cons]
      rw [ihres.2, agentUpdate_resp_state, agentUpdate_resp_state,
        hstate, hchanged]

end AgentMLIndependence

/-- C1 counterexample: thresholds 85/50, debounce 1.5. Tick 1 at time 0
with temp 90 starts a dwell; tick 2 at time 1 has temp 70 (strictly
between the thresholds) while the committed state is NORMAL — yet
`condition_start_time` is still `some 0`, not cleared as the claim
states. -/
theorem C1_counterexample :
    ((50 : ℚ) < 70 ∧ (70 : ℚ) < 85) ∧
    (agentUpdate (agentUpdate (initAgent 85 50 1.5 false false 0
        testPredict) ⟨90, 0, 0, 0, 0⟩).1 ⟨70, 1, 0, 0, 0⟩).1.current_state
      = .NORMAL ∧
    (agentUpdate (agentUpdate (initAgent 85 50 1.5 false false 0
        testPredict) ⟨90, 0, 0, 0, 0⟩).1
        ⟨70, 1, 0, 0, 0⟩).1.condition_start_time = some 0 := by
  norm_num [agentUpdate, fsmStep, initAgent]

/-- C1 (amended): on an in-range tick while the committed state is NORMAL,
the state stays NORMAL with no change reported, and `condition_start_time`
ends up unset exactly when it either was unset before the tick or the
pending deviation's dwell has reached `debounceSeconds`; a pending dwell
inside the debounce window is NOT cleared merely because the instantaneous
level matches the committed state. -/
theorem C1_amended (a : Agent) (inp : AgentInput)
    (hlow : a.threshold_low ≤ inp.temp)
    (hhigh : inp.temp ≤ a.threshold_high)
    (hst : a.current_state = .NORMAL) :
    (agentUpdate a inp).1.current_state = .NORMAL ∧
    (agentUpdate a inp).2.state_changed = false ∧
    ((agentUpdate a inp).1.condition_start_time = none ↔
      (a.condition_start_time = none ∨
       ∃ t0, a.condition_start_time = some t0 ∧
         inp.timestamp_unix - t0 ≥ a.debounce_sec)) := by
  have hfsm := fsmStep_inrange_normal a.threshold_high a.threshold_low
    a.debounce_sec a.condition_start_time inp.temp inp.timestamp_unix
    hlow hhigh
  refine ⟨?_, ?_, ?_⟩
  · rw [agentUpdate_state, hst, hfsm]
  · rw [agentUpdate_changed, hst, hfsm]
  · rw [agentUpdate_csts, hst, hfsm]
    rcases hcs : a.condition_start_time with _ | t0
    · simp
    · by_cases hd : inp.timestamp_unix - t0 ≥ a.debounce_sec <;> simp [hd]

/-- C1 witness: the amended statement at thresholds 85/50, an in-range
temperature 70, committed NORMAL and no pending dwell. -/
theorem C1_amended_witness :
    (agentUpdate (initAgent 85 50 1.5 false false 0 testPredict)
      ⟨70, 0, 0, 0, 0⟩).1.current_state = .NORMAL ∧
    (agentUpdate (initAgent 85 50 1.5 false false 0 testPredict)
      ⟨70, 0, 0, 0, 0⟩).2.state_changed = false ∧
    ((agentUpdate (initAgent 85 50 1.5 false false 0 testPredict)
        ⟨70, 0, 0, 0, 0⟩).1.condition_start_time = none ↔
      ((initAgent 85 50 1.5 false false 0
          testPredict).condition_start_time = none ∨
       ∃ t0, (initAgent 85 50 1.5 false false 0
           testPredict).condition_start_time = some t0 ∧
         (AgentInput.mk 70 0 0 0 0).timestamp_unix - t0 ≥
           (initAgent 85 50 1.5 false false 0 testPredict).debounce_sec)) :=
  C1_amended (initAgent 85 50 1.5 false false 0 testPredict)
    ⟨70, 0, 0, 0, 0⟩ (by norm_num [initAgent]) (by norm_num [initAgent])
    (by norm_num [initAgent])

/-- C7 counterexample: at temperature exactly `highThreshold` (85), the
instantaneous classifier says ALERT_HIGH, but the debounce machine (strict
`>`) treats the reading as in-range: from committed NORMAL with no pending
dwell, no dwell is begun (`condition_start_time` stays unset) and the
state stays NORMAL. -/
theorem C7_counterexample :
    classifyState 85 85 50 = .ALERT_HIGH ∧
    (agentUpdate (initAgent 85 50 1.5 false false 0 testPredict)
      ⟨85, 0, 0, 0, 0⟩).1.condition_start_time = none ∧
    (agentUpdate (initAgent 85 50 1.5 false false 0 testPredict)
      ⟨85, 0, 0, 0, 0⟩).1.current_state = .NORMAL := by
  norm_num [classifyState, agentUpdate, fsmStep, initAgent]

/-- C7 (amended): the instantaneous classifier treats the threshold values
inclusively (`classify(high) = ALERT_HIGH`, `classify(low) = ALERT_LOW`
when `low < high`), but the debounce machine uses strict comparisons, so
at `temp == highThreshold` it treats the reading as in-range: from
committed NORMAL with no pending dwell it begins no dwell and holds
NORMAL. The two rule sets disagree at the threshold boundary. -/
theorem C7_amended (a : Agent) (now : ℚ)
    (hlt : a.threshold_low < a.threshold_high)
    (hst : a.current_state = .NORMAL)
    (hcs : a.condition_start_time = none) :
    classifyState a.threshold_high a.threshold_high a.threshold_low =
      .ALERT_HIGH ∧
    classifyState a.threshold_low a.threshold_high a.threshold_low =
      .ALERT_LOW ∧
    (agentUpdate a
      ⟨a.threshold_high, now, 0, 0, 0⟩).1.condition_start_time = none ∧
    (agentUpdate a ⟨a.threshold_high, now, 0, 0, 0⟩).1.current_state =
      .NORMAL ∧
    (agentUpdate a ⟨a.threshold_high, now, 0, 0, 0⟩).2.state_changed =
      false := by
  have hfsm := fsmStep_inrange_normal a.threshold_high a.threshold_low
    a.debounce_sec a.condition_start_time a.threshold_high now
    (le_of_lt hlt) le_rfl
  refine ⟨?_, ?_, ?_, ?_, ?_⟩
  · unfold classifyState
    rw [if_neg (by linarith), if_pos le_rfl]
  · unfold classifyState
    rw [if_neg (by linarith), if_neg (not_le.mpr hlt), if_pos le_rfl]
  · rw [agentUpdate_csts]
    dsimp only
    rw [hst, hfsm, hcs]
    rfl
  · rw [agentUpdate_state]
    dsimp only
    rw [hst, hfsm]
  · rw [agentUpdate_changed]
    dsimp only
    rw [hst, hfsm]

/-- C7 witness: the amended statement at thresholds 85/50. -/
theorem C7_amended_witness :
    classifyState 85 85 50 = .ALERT_HIGH ∧
    classifyState 50 85 50 = .ALERT_LOW ∧
    (agentUpdate (initAgent 85 50 1.5 false false 0 testPredict)
      ⟨85, 0, 0, 0, 0⟩).1.condition_start_time = none ∧
    (agentUpdate (initAgent 85 50 1.5 false false 0 testPredict)
      ⟨85, 0, 0, 0, 0⟩).1.current_state = .NORMAL ∧
    (agentUpdate (initAgent 85 50 1.5 false false 0 testPredict)
      ⟨85, 0, 0, 0, 0⟩).2.state_changed = false :=
  C7_amended (initAgent 85 50 1.5 false false 0 testPredict) 0
    (by norm_num [initAgent]) (by norm_num [initAgent])
    (by norm_num [initAgent])

/-- When ML is disabled, every response carries `ml_insights = none`. -/
theorem agentRun_ml_none (inputs : List AgentInput) (a : Agent)
    (h : a.use_ml = false) :
    ∀ r ∈ (agentRun a inputs).2, r.ml_insights = none := by
  induction inputs generalizing a with
  | nil => simp [agentRun_nil]
  | cons x xs ih =>
      rw [agentRun_cons]
      intro r hr
      rcases List.mem_cons.mp hr with h' | h'
      · subst h'
        rw [agentUpdate_ml]
        simp [h]
      · exact ih (agentUpdate a x).1
          (((agentUpdate_config a x).2.2.2.1).trans h) r h'

/-- C9: two agents that agree on thresholds, debounce window, committed
state and pending dwell — but may differ arbitrarily in ML configuration
and predictor — produce identical committed states and identical
`(state, state_changed)` outputs on every tick of every input sequence;
and when ML is disabled every tick's `ml_insights` is `None`. The
predictor output is attached to the response but never participates in
the transition logic. -/
theorem C9_predictor_isolation (inputs : List AgentInput) (a b : Agent)
    (hh : a.threshold_high = b.threshold_high)
    (hl : a.threshold_low = b.threshold_low)
    (hd : a.debounce_sec = b.debounce_sec)
    (hc : a.current_state = b.current_state)
    (hs : a.condition_start_time = b.condition_start_time) :
    ((agentRun a inputs).1.current_state =
       (agentRun b inputs).1.current_state ∧
     (agentRun a inputs).2.map (fun r => (r.state, r.state_changed)) =
       (agentRun b inputs).2.map (fun r => (r.state, r.state_changed))) ∧
    (b.use_ml = false →
      ∀ r ∈ (agentRun b inputs).2, r.ml_insights = none) :=
  ⟨agentRun_ml_indep inputs a b hh hl hd hc hs,
   fun h => agentRun_ml_none inputs b h⟩

/-- C9 witness: an ML-enabled agent versus an ML-disabled agent on a
concrete two-tick input sequence. -/
theorem C9_predictor_isolation_witness :
    ((agentRun (initAgent 85 50 1.5 true true 0 testPredict)
        [⟨90, 0, 0, 0, 0⟩, ⟨90, 2, 0, 0, 0⟩]).1.current_state =
      (agentRun (initAgent 85 50 1.5 false false 0 testPredict)
        [⟨90, 0, 0, 0, 0⟩, ⟨90, 2, 0, 0, 0⟩]).1.current_state ∧
     (agentRun (initAgent 85 50 1.5 true true 0 testPredict)
        [⟨90, 0, 0, 0, 0⟩, ⟨90, 2, 0, 0, 0⟩]).2.map
          (fun r => (r.state, r.state_changed)) =
       (agentRun (initAgent 85 50 1.5 false false 0 testPredict)
        [⟨90, 0, 0, 0, 0⟩, ⟨90, 2, 0, 0, 0⟩]).2.map
          (fun r => (r.state, r.state_changed))) ∧
    ((initAgent 85 50 1.5 false false 0 testPredict).use_ml = false →
      ∀ r ∈ (agentRun (initAgent 85 50 1.5 false false 0 testPredict)
        [⟨90, 0, 0, 0, 0⟩, ⟨90, 2, 0, 0, 0⟩]).2, r.ml_insights = none) :=
  C9_predictor_isolation [⟨90, 0, 0, 0, 0⟩, ⟨90, 2, 0, 0, 0⟩]
    (initAgent 85 50 1.5 true true 0 testPredict)
    (initAgent 85 50 1.5 false false 0 testPredict)
    rfl rfl rfl rfl rfl

/-- C10: along every run from a freshly constructed agent, and every run
from a freshly reset agent, the committed state is always one of NORMAL,
ALERT_HIGH, ALERT_LOW; the declared state ML_PREDICTED_FAULT is never
reached, neither as the final committed state nor on any tick's
response. -/
theorem C10_ml_fault_unreachable (th tl d : ℚ) (um mr : Bool) (now : ℚ)
    (f : ℚ → ℚ → ℚ → ℚ → MLInsights) (inputs : List AgentInput)
    (b : Agent) (now2 : ℚ) (inputs2 : List AgentInput) :
    (((agentRun (initAgent th tl d um mr now f) inputs).1.current_state =
        .NORMAL ∨
      (agentRun (initAgent th tl d um mr now f) inputs).1.current_state =
        .ALERT_HIGH ∨
      (agentRun (initAgent th tl d um mr now f) inputs).1.current_state =
        .ALERT_LOW) ∧
     (agentRun (initAgent th tl d um mr now f) inputs).1.current_state ≠
       .ML_PREDICTED_FAULT ∧
     ∀ r ∈ (agentRun (initAgent th tl d um mr now f) inputs).2,
       r.state ≠ .ML_PREDICTED_FAULT) ∧
    (((agentRun (resetAgent b now2) inputs2).1.current_state = .NORMAL ∨
      (agentRun (resetAgent b now2) inputs2).1.current_state =
        .ALERT_HIGH ∨
      (agentRun (resetAgent b now2) inputs2).1.current_state =
        .ALERT_LOW) ∧
     (agentRun (resetAgent b now2) inputs2).1.current_state ≠
       .ML_PREDICTED_FAULT ∧
     ∀ r ∈ (agentRun (resetAgent b now2) inputs2).2,
       r.state ≠ .ML_PREDICTED_FAULT) := by
  have h1 := agentRun_states_good inputs (initAgent th tl d um mr now f)
    (Or.inl rfl)
  have h2 := agentRun_states_good inputs2 (resetAgent b now2) (Or.inl rfl)
  refine ⟨⟨h1.1, ?_, ?_⟩, ⟨h2.1, ?_, ?_⟩⟩
  · rcases h1.1 with h | h | h <;> simp [h]
  · intro r hr
    rcases h1.2 r hr with h | h | h <;> simp [h]
  · rcases h2.1 with h | h | h <;> simp [h]
  · intro r hr
    rcases h2.2 r hr with h | h | h <;> simp [h]

/-- C10 witness: the unreachability statement projected at a concrete
agent and run. -/
theorem C10_ml_fault_unreachable_witness :
    (agentRun (initAgent 85 50 1.5 false false 0 testPredict)
      [⟨90, 0, 0, 0, 0⟩]).1.current_state ≠ .ML_PREDICTED_FAULT :=
  (C10_ml_fault_unreachable 85 50 1.5 false false 0 testPredict
    [⟨90, 0, 0, 0, 0⟩] (initAgent 85 50 1.5 false false 0 testPredict) 0
    []).1.2.1

section AppListLemmas

/-- Dropping a strict prefix preserves the last element. -/
theorem drop_getLast? {α : Type} (l : List α) (k : ℕ) (h : k < l.length) :
    (l.drop k).getLast? = l.getLast? := by
  rw [List.getLast?_eq_getElem?, List.getLast?_eq_getElem?,
    List.getElem?_drop, List.length_drop]
  congr 1
  omega

/-- The `[-n:]` trim preserves the last element. -/
theorem trimLast_getLast? {α : Type} (n : ℕ) (hn : 1 ≤ n) (l : List α) :
    (trimLast n l).getLast? = l.getLast? := by
  unfold trimLast
  split_ifs with h
  · exact drop_getLast? _ _ (by omega)
  · rfl

/-- After appending to a nonempty list and trimming to `n ≥ 2`, the
second-to-last element is the old last element, and the length exceeds
one. -/
theorem trimLast_prev {α : Type} (n : ℕ) (hn : 2 ≤ n) (l : List α) (x : α)
    (hl : l ≠ []) :
    (trimLast n (l ++ [x]))[(trimLast n (l ++ [x])).length - 2]? =
      l.getLast? ∧
    (trimLast n (l ++ [x])).length > 1 := by
  have hm : 1 ≤ l.length := List.length_pos.mpr hl
  have hlen : (l ++ [x]).length = l.length + 1 := by simp
  unfold trimLast
  split_ifs with h
  · rw [hlen] at h
    constructor
    · rw [List.getElem?_drop, List.length_drop, hlen]
      rw [show l.length + 1 - n + (l.length + 1 - (l.length + 1 - n) - 2) =
        l.length - 1 by omega]
      rw [List.getElem?_append_left (by omega), ← List.getLast?_eq_getElem?]
    · rw [List.length_drop, hlen]
      omega
  · constructor
    · rw [hlen, show l.length + 1 - 2 = l.length - 1 by omega]
      rw [List.getElem?_append_left (by omega), ← List.getLast?_eq_getElem?]
    · rw [hlen]
      omega

end AppListLemmas

section AppStepLemmas

theorem mkTick_state (high low : ℚ) (tc : ℕ) (inp : AppInput) :
    (mkTick high low tc inp).state = classifyState inp.temp high low := rfl

/-- First tick into an empty history: nothing is appended to the alert log
or the scheduler. -/
theorem appStep_of_empty (high low : ℚ) (s : AppState) (inp : AppInput)
    (hs : s.sensor_history = []) :
    (appStep high low s inp).alert_history = s.alert_history ∧
    (appStep high low s inp).scheduler = s.scheduler ∧
    lastTickState (appStep high low s inp) =
      some (classifyState inp.temp high low) := by
  unfold appStep lastTickState
  rw [hs]
  simp [trimLast, mkTick_state]

/-- A tick whose classified state matches the previous tick's state:
nothing is appended to the alert log or the scheduler. -/
theorem appStep_same (high low : ℚ) (s : AppState) (inp : AppInput)
    (c : CondState) (hc : classifyState inp.temp high low = c)
    (hs : lastTickState s = some c) :
    (appStep high low s inp).alert_history = s.alert_history ∧
    (appStep high low s inp).scheduler = s.scheduler ∧
    lastTickState (appStep high low s inp) = some c := by
  obtain ⟨p, hp, hpc⟩ : ∃ p, s.sensor_history.getLast? = some p ∧
      p.state = c := by
    unfold lastTickState at hs
    rcases hmap : s.sensor_history.getLast? with _ | p
    · rw [hmap] at hs
      simp at hs
    · rw [hmap] at hs
      simp at hs
      exact ⟨p, rfl, hs⟩
  have hne : s.sensor_history ≠ [] := by
    intro h
    rw [h] at hp
    simp at hp
  have hprev := trimLast_prev 300 (by norm_num) s.sensor_history
    (mkTick high low s.tick_count inp) hne
  have heq : ¬(p.state ≠ (mkTick high low s.tick_count inp).state) := by
    rw [hpc, mkTick_state, hc]
    simp
  unfold appStep lastTickState
  dsimp only
  rw [if_pos hprev.2, hprev.1, hp]
  dsimp only
  rw [if_neg heq]
  refine ⟨rfl, rfl, ?_⟩
  dsimp only
  rw [trimLast_getLast? 300 (by norm_num), List.getLast?_concat]
  simp [mkTick_state, hc]

/-- A tick whose classified state differs from the previous tick's state:
exactly one alert and one maintenance task are appended, with the
severity/priority determined by whether the new state is CRITICAL and the
task status "Pending". -/
theorem appStep_change (high low : ℚ) (s : AppState) (inp : AppInput)
    (c c' : CondState) (hc : classifyState inp.temp high low = c')
    (hs : lastTickState s = some c) (hne : c ≠ c') :
    (appStep high low s inp).alert_history =
      trimLast 100 (s.alert_history ++
        [{ fromState := c, toState := c',
           severity := if c' = .CRITICAL then .CRITICAL else .WARNING }]) ∧
    (appStep high low s inp).scheduler = s.scheduler ++
      [{ priority := if c' = .CRITICAL then 1 else 2,
         task := "Inspect cooling system", status := "Pending",
         confidence := round2 inp.conf }] ∧
    lastTickState (appStep high low s inp) = some c' := by
  obtain ⟨p, hp, hpc⟩ : ∃ p, s.sensor_history.getLast? = some p ∧
      p.state = c := by
    unfold lastTickState at hs
    rcases hmap : s.sensor_history.getLast? with _ | p
    · rw [hmap] at hs
      simp at hs
    · rw [hmap] at hs
      simp at hs
      exact ⟨p, rfl, hs⟩
  have hnel : s.sensor_history ≠ [] := by
    intro h
    rw [h] at hp
    simp at hp
  have hprev := trimLast_prev 300 (by norm_num) s.sensor_history
    (mkTick high low s.tick_count inp) hnel
  have hdiff : p.state ≠ (mkTick high low s.tick_count inp).state := by
    rw [hpc, mkTick_state, hc]
    exact hne
  unfold appStep lastTickState
  dsimp only
  rw [if_pos hprev.2, hprev.1, hp]
  dsimp only
  rw [if_pos hdiff]
  refine ⟨?_, ?_, ?_⟩
  · rw [hpc, mkTick_state, hc]
  · rw [mkTick_state, hc]
  · dsimp only
    rw [trimLast_getLast? 300 (by norm_num), List.getLast?_concat]
    simp [mkTick_state, hc]

end AppStepLemmas

section AppRunLemmas

theorem appRun_nil (high low : ℚ) (s : AppState) :
    appRun high low s [] = s := rfl

theorem appRun_cons (high low : ℚ) (s : AppState) (i : AppInput)
    (inputs : List AppInput) :
    appRun high low s (i :: inputs) =
      appRun high low (appStep high low s i) inputs := rfl

/-- A run whose ticks all classify to the previous tick's state appends
nothing to the alert log or the scheduler. -/
theorem appRun_same (high low : ℚ) (inputs : List AppInput) (s : AppState)
    (c : CondState) (hall : ∀ i ∈ inputs, classifyState i.temp high low = c)
    (hs : lastTickState s = some c) :
    (appRun high low s inputs).alert_history = s.alert_history ∧
    (appRun high low s inputs).scheduler = s.scheduler ∧
    lastTickState (appRun high low s inputs) = some c := by
  induction inputs generalizing s with
  | nil => exact ⟨rfl, rfl, hs⟩
  | cons i rest ih =>
      have hstep := appStep_same high low s i c
        (hall i (List.mem_cons_self i rest)) hs
      have ihres := ih (appStep high low s i)
        (fun j hj => hall j (List.mem_cons_of_mem i hj)) hstep.2.2
      rw [appRun_cons]
      exact ⟨ihres.1.trans hstep.1, ihres.2.1.trans hstep.2.1, ihres.2.2⟩

/-- A nonempty run from an empty history whose ticks all classify to the
same state appends nothing to the alert log or the scheduler and leaves
that state as the last tick's state. -/
theorem appRun_const_from_empty (high low : ℚ) (inputs : List AppInput)
    (s : AppState) (c : CondState) (hne : inputs ≠ [])
    (hall : ∀ i ∈ inputs, classifyState i.temp high low = c)
    (hs : s.sensor_history = []) :
    (appRun high low s inputs).alert_history = s.alert_history ∧
    (appRun high low s inputs).scheduler = s.scheduler ∧
    lastTickState (appRun high low s inputs) = some c := by
  rcases inputs with _ | ⟨i, rest⟩
  · exact absurd rfl hne
  · have hstep := appStep_of_empty high low s i hs
    have hstep' : lastTickState (appStep high low s i) = some c := by
      rw [hstep.2.2, hall i (List.mem_cons_self i rest)]
    have hrest := appRun_same high low rest (appStep high low s i) c
      (fun j hj => hall j (List.mem_cons_of_mem i hj)) hstep'
    rw [appRun_cons]
    exact ⟨hrest.1.trans hstep.1, hrest.2.1.trans hstep.2.1, hrest.2.2⟩

end AppRunLemmas

section RunAppend

theorem agentRun_append (a : Agent) (l1 l2 : List AgentInput) :
    agentRun a (l1 ++ l2) =
      ((agentRun (agentRun a l1).1 l2).1,
       (agentRun a l1).2 ++ (agentRun (agentRun a l1).1 l2).2) := by
  induction l1 generalizing a with
  | nil => simp [agentRun_nil]
  | cons x xs ih =>
      rw [List.cons_append, agentRun_cons, agentRun_cons, ih]
      simp

theorem appRun_append (high low : ℚ) (s : AppState)
    (l1 l2 : List AppInput) :
    appRun high low s (l1 ++ l2) =
      appRun high low (appRun high low s l1) l2 := by
  induction l1 generalizing s with
  | nil => rw [List.nil_append, appRun_nil]
  | cons x xs ih =>
      rw [List.cons_append, appRun_cons, appRun_cons, ih]

end RunAppend

section SustainedExcursion

/-- From a fresh NORMAL state, a run of above-threshold temperatures whose
first-to-last span reaches the debounce window reports exactly one state
change and ends committed ALERT_HIGH. -/
theorem agentRun_sustained_high (inputs : List AgentInput) (a : Agent)
    (hne : inputs ≠ [])
    (hst : a.current_state = .NORMAL)
    (hcs : a.condition_start_time = none)
    (hhigh : ∀ x ∈ inputs, x.temp > a.threshold_high)
    (hdur : (inputs.getLast hne).timestamp_unix -
      (inputs.head hne).timestamp_unix ≥ a.debounce_sec) :
    ((agentRun a inputs).2.filter (fun r => r.state_changed)).length = 1 ∧
    (agentRun a inputs).1.current_state = .ALERT_HIGH := by
  rcases inputs with _ | ⟨x, xs⟩
  · exact absurd rfl hne
  · simp only [List.head_cons] at hdur
    have hx := hhigh x (List.mem_cons_self x xs)
    have hcfg := agentUpdate_config a x
    have hfsm := fsmStep_high_fresh a.threshold_high a.threshold_low
      a.debounce_sec a.current_state a.condition_start_time x.temp
      x.timestamp_unix hx hcs
    by_cases h0 : (0 : ℚ) ≥ a.debounce_sec
    · rw [if_pos h0] at hfsm
      have hstate : (agentUpdate a x).1.current_state = .ALERT_HIGH := by
        rw [agentUpdate_state, hfsm]
      have hchanged : (agentUpdate a x).2.state_changed = true := by
        rw [agentUpdate_changed, hfsm, hst]
        simp
      have habs := agentRun_high_absorb xs (agentUpdate a x).1 hstate
        (fun y hy => by
          rw [hcfg.1]
          exact hhigh y (List.mem_cons_of_mem x hy))
      rw [agentRun_cons]
      constructor
      · have hfilter : ((agentRun (agentUpdate a x).1 xs).2.filter
            (fun r => r.state_changed)) = [] := by
          rw [List.filter_eq_nil]
          intro r hr
          simp [(habs.2 r hr).2]
        simp [List.filter_cons, hchanged, hfilter]
      · exact habs.1
    · rw [if_neg h0] at hfsm
      have hstate : (agentUpdate a x).1.current_state = .NORMAL := by
        rw [agentUpdate_state, hfsm]
        exact hst
      have hchanged : (agentUpdate a x).2.state_changed = false := by
        rw [agentUpdate_changed, hfsm]
      have hcsts : (agentUpdate a x).1.condition_start_time =
          some x.timestamp_unix := by
        rw [agentUpdate_csts, hfsm]
        rfl
      have hpend := agentRun_high_pending xs (agentUpdate a x).1
        x.timestamp_unix hstate hcsts
        (fun y hy => by
          rw [hcfg.1]
          exact hhigh y (List.mem_cons_of_mem x hy))
      rw [hcfg.2.2.1] at hpend
      have hxs_ne : xs ≠ [] := by
        intro hnil
        subst hnil
        simp only [List.getLast_singleton] at hdur
        exact h0 (by linarith)
      have hmem : (x :: xs).getLast (List.cons_ne_nil x xs) ∈ xs := by
        rw [List.getLast_cons hxs_ne]
        exact List.getLast_mem hxs_ne
      have hex : ∃ y ∈ xs,
          y.timestamp_unix - x.timestamp_unix ≥ a.debounce_sec :=
        ⟨(x :: xs).getLast (List.cons_ne_nil x xs), hmem, hdur⟩
      rw [agentRun_cons]
      constructor
      · rw [List.filter_cons]
        simp only [hchanged, decide_False, Bool.false_eq_true, if_false]
        rw [hpend.1, if_pos hex]
      · rw [hpend.2, if_pos hex]

/-- From an empty session, a nonempty NORMAL-classified prefix followed by
a nonempty CRITICAL-classified excursion appends exactly one alert
(NORMAL → CRITICAL, severity CRITICAL) and exactly one maintenance task
(priority 1, status "Pending"). -/
theorem appRun_excursion_once (high low : ℚ) (xs ys : List AppInput)
    (hxs : xs ≠ []) (hys : ys ≠ [])
    (hxn : ∀ i ∈ xs, classifyState i.temp high low = .NORMAL)
    (hyc : ∀ i ∈ ys, classifyState i.temp high low = .CRITICAL) :
    (appRun high low emptyApp (xs ++ ys)).alert_history =
      [{ fromState := .NORMAL, toState := .CRITICAL,
         severity := .CRITICAL }] ∧
    ∃ t, (appRun high low emptyApp (xs ++ ys)).scheduler = [t] ∧
      t.priority = 1 ∧ t.status = "Pending" := by
  have hphase1 := appRun_const_from_empty high low xs emptyApp .NORMAL hxs
    hxn rfl
  rcases ys with _ | ⟨y, yrest⟩
  · exact absurd rfl hys
  · have hstep := appStep_change high low (appRun high low emptyApp xs) y
      .NORMAL .CRITICAL (hyc y (List.mem_cons_self y yrest)) hphase1.2.2
      (by simp)
    have hphase3 := appRun_same high low yrest
      (appStep high low (appRun high low emptyApp xs) y) .CRITICAL
      (fun j hj => hyc j (List.mem_cons_of_mem y hj)) hstep.2.2
    rw [appRun_append, appRun_cons]
    constructor
    · rw [hphase3.1, hstep.1, hphase1.1]
      rfl
    · refine ⟨MTask.mk 1 "Inspect cooling system" "Pending"
        (round2 y.conf), ?_, rfl, rfl⟩
      rw [hphase3.2.1, hstep.2.1, hphase1.2.1]
      rfl

end SustainedExcursion

/-- C3 counterexample: thresholds 85/50. Tick 1 reads 90 (ALERT_HIGH),
tick 2 reads 70 (NORMAL): a state change to NORMAL is recorded — and a
MaintenanceTask IS appended (priority 2, status "Pending"), contradicting
"only when the new committed state is not NORMAL". -/
theorem C3_counterexample :
    (appRun 85 50 emptyApp
      [⟨90, 0, 3, 13, 0.9⟩, ⟨70, 0, 3, 13, 0.9⟩]).alert_history =
      [{ fromState := .ALERT_HIGH, toState := .NORMAL,
         severity := .WARNING }] ∧
    (appRun 85 50 emptyApp
      [⟨90, 0, 3, 13, 0.9⟩, ⟨70, 0, 3, 13, 0.9⟩]).scheduler =
      [{ priority := 2, task := "Inspect cooling system",
         status := "Pending", confidence := round2 0.9 }] := by
  have h1 := appStep_of_empty 85 50 emptyApp ⟨90, 0, 3, 13, 0.9⟩ rfl
  have h1' : lastTickState (appStep 85 50 emptyApp ⟨90, 0, 3, 13, 0.9⟩) =
      some .ALERT_HIGH := by
    rw [h1.2.2]
    norm_num [classifyState]
  have h2 := appStep_change 85 50
    (appStep 85 50 emptyApp ⟨90, 0, 3, 13, 0.9⟩) ⟨70, 0, 3, 13, 0.9⟩
    .ALERT_HIGH .NORMAL (by norm_num [classifyState]) h1' (by decide)
  constructor
  · rw [appRun_cons, appRun_cons, appRun_nil, h2.1, h1.1]
    rfl
  · rw [appRun_cons, appRun_cons, appRun_nil, h2.2.1, h1.2.1]
    rfl

/-- C3 (amended): on every tick in which a state change is recorded, a
MaintenanceTask is appended regardless of whether the new committed state
is NORMAL — including on transitions whose toState is NORMAL — with
priority 1 when the new state is CRITICAL and 2 otherwise, and with
initial status "Pending"; the AlertEvent is appended in the same tick. -/
theorem C3_amended (high low : ℚ) (s : AppState) (inp : AppInput)
    (c : CondState) (hs : lastTickState s = some c)
    (hchange : c ≠ classifyState inp.temp high low) :
    (appStep high low s inp).scheduler = s.scheduler ++
      [{ priority :=
           if classifyState inp.temp high low = .CRITICAL then 1 else 2,
         task := "Inspect cooling system", status := "Pending",
         confidence := round2 inp.conf }] ∧
    (appStep high low s inp).alert_history =
      trimLast 100 (s.alert_history ++
        [{ fromState := c, toState := classifyState inp.temp high low,
           severity := if classifyState inp.temp high low = .CRITICAL
             then .CRITICAL else .WARNING }]) := by
  have h := appStep_change high low s inp c
    (classifyState inp.temp high low) rfl hs hchange
  exact ⟨h.2.1, h.1⟩

/-- C3 witness: the amended statement at the counterexample's second
tick. -/
theorem C3_amended_witness :
    (appStep 85 50 (appStep 85 50 emptyApp ⟨90, 0, 3, 13, 0.9⟩)
      ⟨70, 0, 3, 13, 0.9⟩).scheduler =
      (appStep 85 50 emptyApp ⟨90, 0, 3, 13, 0.9⟩).scheduler ++
      [{ priority := if classifyState 70 85 50 = .CRITICAL then 1 else 2,
         task := "Inspect cooling system", status := "Pending",
         confidence := round2 0.9 }] ∧
    (appStep 85 50 (appStep 85 50 emptyApp ⟨90, 0, 3, 13, 0.9⟩)
      ⟨70, 0, 3, 13, 0.9⟩).alert_history =
      trimLast 100
        ((appStep 85 50 emptyApp ⟨90, 0, 3, 13, 0.9⟩).alert_history ++
        [{ fromState := .ALERT_HIGH, toState := classifyState 70 85 50,
           severity := if classifyState 70 85 50 = .CRITICAL
             then .CRITICAL else .WARNING }]) :=
  C3_amended 85 50 (appStep 85 50 emptyApp ⟨90, 0, 3, 13, 0.9⟩)
    ⟨70, 0, 3, 13, 0.9⟩ .ALERT_HIGH
    (by
      have h1 := appStep_of_empty 85 50 emptyApp ⟨90, 0, 3, 13, 0.9⟩ rfl
      rw [h1.2.2]
      norm_num [classifyState])
    (by norm_num [classifyState]; decide)

/-- C4: (i) the debounce machine: from fresh NORMAL, temperatures above
`highThreshold` on every tick with the first-to-last span reaching
`debounceSeconds` (timestamps non-decreasing) yield exactly one
`state_changed` tick and a final committed ALERT_HIGH; (ii) the alert
pipeline: from an empty session, a NORMAL-classified prefix followed by a
sustained at-or-above `highThreshold + 10` band appends exactly one
AlertEvent (toState CRITICAL, severity CRITICAL) and exactly one
MaintenanceTask (priority 1, status "Pending"). -/
theorem C4_sustained_excursion
    (a : Agent) (inputs : List AgentInput) (hne : inputs ≠ [])
    (hst : a.current_state = .NORMAL)
    (hcs : a.condition_start_time = none)
    (hhigh : ∀ x ∈ inputs, x.temp > a.threshold_high)
    (hchain : List.Chain'
      (fun p q => p.timestamp_unix ≤ q.timestamp_unix) inputs)
    (hdur : (inputs.getLast hne).timestamp_unix -
      (inputs.head hne).timestamp_unix ≥ a.debounce_sec)
    (high low : ℚ) (xs ys : List AppInput) (hxs : xs ≠ []) (hys : ys ≠ [])
    (hxn : ∀ i ∈ xs, classifyState i.temp high low = .NORMAL)
    (hyc : ∀ i ∈ ys, i.temp ≥ high + 10) :
    (((agentRun a inputs).2.filter (fun r => r.state_changed)).length = 1 ∧
     (agentRun a inputs).1.current_state = .ALERT_HIGH) ∧
    ((appRun high low emptyApp (xs ++ ys)).alert_history =
       [{ fromState := .NORMAL, toState := .CRITICAL,
          severity := .CRITICAL }] ∧
     ∃ t, (appRun high low emptyApp (xs ++ ys)).scheduler = [t] ∧
       t.priority = 1 ∧ t.status = "Pending") := by
  refine ⟨agentRun_sustained_high inputs a hne hst hcs hhigh hdur,
    appRun_excursion_once high low xs ys hxs hys hxn (fun i hi => ?_)⟩
  unfold classifyState
  rw [if_pos (hyc i hi)]

/-- C4 witness: thresholds 85/50, debounce 1.5; agent ticks at 90 °F at
times 0 and 2; app run with one 70 °F tick then one 95 °F tick. -/
theorem C4_sustained_excursion_witness :
    (((agentRun (initAgent 85 50 1.5 false false 0 testPredict)
        [⟨90, 0, 0, 0, 0⟩, ⟨90, 2, 0, 0, 0⟩]).2.filter
          (fun r => r.state_changed)).length = 1 ∧
     (agentRun (initAgent 85 50 1.5 false false 0 testPredict)
        [⟨90, 0, 0, 0, 0⟩, ⟨90, 2, 0, 0, 0⟩]).1.current_state =
       .ALERT_HIGH) ∧
    ((appRun 85 50 emptyApp
        ([⟨70, 0, 3, 13, 0.9⟩] ++ [⟨95, 0, 3, 13, 0.9⟩])).alert_history =
       [{ fromState := .NORMAL, toState := .CRITICAL,
          severity := .CRITICAL }] ∧
     ∃ t, (appRun 85 50 emptyApp
        ([⟨70, 0, 3, 13, 0.9⟩] ++ [⟨95, 0, 3, 13, 0.9⟩])).scheduler =
          [t] ∧ t.priority = 1 ∧ t.status = "Pending") :=
  C4_sustained_excursion (initAgent 85 50 1.5 false false 0 testPredict)
    [⟨90, 0, 0, 0, 0⟩, ⟨90, 2, 0, 0, 0⟩] (by simp)
    rfl rfl
    (by
      intro x hx
      rcases List.mem_cons.mp hx with h | h
      · subst h; norm_num [initAgent]
      · rcases List.mem_cons.mp h with h' | h'
        · subst h'; norm_num [initAgent]
        · simp at h')
    (by
      refine List.chain'_cons.mpr ⟨?_, ?_⟩
      · norm_num
      · simp)
    (by norm_num [initAgent, List.getLast])
    85 50 [⟨70, 0, 3, 13, 0.9⟩] [⟨95, 0, 3, 13, 0.9⟩]
    (by simp) (by simp)
    (by
      intro i hi
      rcases List.mem_cons.mp hi with h | h
      · subst h; norm_num [classifyState]
      · simp at h)
    (by
      intro i hi
      rcases List.mem_cons.mp hi with h | h
      · subst h; norm_num
      · simp at h)

/-- C5 counterexample: thresholds 85/50, debounce 1.5 with 1.5-second
ticks. A single instantaneous excursion to 90 °F (one tick, shorter than
the debounce window) followed by a return to 70 °F makes the app.py alert
pipeline — which is driven by the undebounced instantaneous classifier —
append TWO AlertEvents, not zero. -/
theorem C5_counterexample :
    (appRun 85 50 emptyApp
      [⟨70, 0, 3, 13, 0.9⟩, ⟨90, 0, 3, 13, 0.9⟩,
       ⟨70, 0, 3, 13, 0.9⟩]).alert_history =
      [{ fromState := .NORMAL, toState := .ALERT_HIGH,
         severity := .WARNING },
       { fromState := .ALERT_HIGH, toState := .NORMAL,
         severity := .WARNING }] := by
  have h1 := appStep_of_empty 85 50 emptyApp ⟨70, 0, 3, 13, 0.9⟩ rfl
  have h1' : lastTickState (appStep 85 50 emptyApp ⟨70, 0, 3, 13, 0.9⟩) =
      some .NORMAL := by
    rw [h1.2.2]
    norm_num [classifyState]
  have h2 := appStep_change 85 50
    (appStep 85 50 emptyApp ⟨70, 0, 3, 13, 0.9⟩) ⟨90, 0, 3, 13, 0.9⟩
    .NORMAL .ALERT_HIGH (by norm_num [classifyState]) h1' (by decide)
  have h3 := appStep_change 85 50
    (appStep 85 50 (appStep 85 50 emptyApp ⟨70, 0, 3, 13, 0.9⟩)
      ⟨90, 0, 3, 13, 0.9⟩) ⟨70, 0, 3, 13, 0.9⟩
    .ALERT_HIGH .NORMAL (by norm_num [classifyState]) h2.2.2 (by decide)
  rw [appRun_cons, appRun_cons, appRun_cons, appRun_nil, h3.1, h2.1, h1.1]
  rfl

/-- C5 (amended): in the debounced agent, from committed NORMAL with no
pending dwell, an above-threshold excursion whose samples all lie within
one debounce window of each other, followed by a return to the in-range
band, never produces a committed state change: every tick reports
NORMAL with `state_changed = false`. (The app.py alert log, driven by the
undebounced classifier, does append AlertEvents for such a blip — see the
counterexample.) -/
theorem C5_blip_suppressed (a : Agent) (blip rest : List AgentInput)
    (hst : a.current_state = .NORMAL)
    (hcs : a.condition_start_time = none)
    (hhigh : ∀ x ∈ blip, x.temp > a.threshold_high)
    (hshort : ∀ x ∈ blip, ∀ y ∈ blip,
      y.timestamp_unix - x.timestamp_unix < a.debounce_sec)
    (hrest : ∀ x ∈ rest,
      a.threshold_low ≤ x.temp ∧ x.temp ≤ a.threshold_high) :
    (agentRun a (blip ++ rest)).1.current_state = .NORMAL ∧
    ∀ r ∈ (agentRun a (blip ++ rest)).2,
      r.state = .NORMAL ∧ r.state_changed = false := by
  have h1 := agentRun_high_short blip a hst (Or.inl hcs) hhigh hshort
  have hcfg := agentRun_config a blip
  have h2 := agentRun_inrange_normal rest (agentRun a blip).1 h1.1 (by
    intro x hx
    rw [hcfg.2.1, hcfg.1]
    exact hrest x hx)
  rw [agentRun_append]
  refine ⟨h2.1, ?_⟩
  intro r hr
  rcases List.mem_append.mp hr with h | h
  · exact h1.2 r h
  · exact h2.2 r h

/-- C5 witness: thresholds 85/50, debounce 1.5; one 90 °F tick at time 0,
then a 70 °F tick at time 1. -/
theorem C5_blip_suppressed_witness :
    (agentRun (initAgent 85 50 1.5 false false 0 testPredict)
      ([⟨90, 0, 0, 0, 0⟩] ++ [⟨70, 1, 0, 0, 0⟩])).1.current_state =
      .NORMAL ∧
    ∀ r ∈ (agentRun (initAgent 85 50 1.5 false false 0 testPredict)
      ([⟨90, 0, 0, 0, 0⟩] ++ [⟨70, 1, 0, 0, 0⟩])).2,
      r.state = .NORMAL ∧ r.state_changed = false :=
  C5_blip_suppressed (initAgent 85 50 1.5 false false 0 testPredict)
    [⟨90, 0, 0, 0, 0⟩] [⟨70, 1, 0, 0, 0⟩] rfl rfl
    (by
      intro x hx
      rcases List.mem_cons.mp hx with h | h
      · subst h; norm_num [initAgent]
      · simp at h)
    (by
      intro x hx y hy
      rcases List.mem_cons.mp hx with h | h
      · rcases List.mem_cons.mp hy with h' | h'
        · subst h; subst h'; norm_num [initAgent]
        · simp at h'
      · simp at h)
    (by
      intro x hx
      rcases List.mem_cons.mp hx with h | h
      · subst h; constructor <;> norm_num [initAgent]
      · simp at h)

/-- C6 witness: the boundary classification at thresholds 85/50. -/
theorem C6_classify_boundary_critical_witness :
    classifyState (85 + 10) 85 50 = .CRITICAL :=
  C6_classify_boundary_critical 85 50
